import Mathlib

/-!
Verification of the SpeakPoly Trust & Safety moderation pipeline.

Shallow embedding of:
* `detectAndRedactContactInfo` (packages/utils) — contact redaction with a
  faithful backtracking engine for the three JS regex patterns;
* `SafetyService.moderateText` / `processRuleBasedResponse` /
  `processMLResponse` / `scoresToSeverity` / `mapIntensityToSeverity` /
  `getCategorySeverity` (services/safety/index.ts) — the external network
  calls are modelled by their outcomes (`Except`), everything else follows
  the source line by line;
* `ModeratorService.recordSafetyEvent` / `determineSanctions` /
  `applySanction` / `recordWarning` / `updateUserSafetyScore` /
  `requiresHumanReview` / `getHighestSeverity` (services/matching,
  moderation part) — the Prisma database is modelled as explicit state;
* `AdminService.adjustSafetyScore` (services/admin/index.ts).

JS numbers that hold ML confidence scores are modelled as `ℚ`; timestamps
(`Date.now()`, milliseconds) as `Int`; strings as Lean `String` /
`List Char`.
-/

namespace SpeakPoly

/-! ## Violation taxonomy (services/safety/index.ts) -/

/-- Source `enum ViolationSeverity { LOW, MEDIUM, HIGH, CRITICAL }`. -/
inductive ViolationSeverity where
  | low
  | medium
  | high
  | critical
deriving DecidableEq, Repr

/-- Source `category: 'rule-based' | 'ml-based' | 'contact-detection'`. -/
inductive ViolationCategory where
  | ruleBased
  | mlBased
  | contactDetection
deriving DecidableEq, Repr

/-- Source `action: 'block' | 'flag' | 'moderate'`. -/
inductive ViolationAction where
  | block
  | flag
  | moderate
deriving DecidableEq, Repr

/-- Source `interface SafetyViolation` (the `description` string is carried verbatim
from the source templates, with the numeric interpolation of ML confidence
percentages omitted since no logic reads it back). -/
structure SafetyViolation where
  type : String
  severity : ViolationSeverity
  confidence : ℚ
  description : String
  category : ViolationCategory
  action : ViolationAction
deriving DecidableEq, Repr

/-- Source `mapIntensityToSeverity(intensity)` — `high→CRITICAL`, `medium→HIGH`,
`low→MEDIUM`, default `LOW`.  (The source lowercases the intensity first;
we keep the comparison on the already-lowercased string.) -/
def mapIntensityToSeverity (intensity : String) : ViolationSeverity :=
  if intensity = "high" then .critical
  else if intensity = "medium" then .high
  else if intensity = "low" then .medium
  else .low

/-- Source `scoresToSeverity(score)` — threshold bands. -/
def scoresToSeverity (score : ℚ) : ViolationSeverity :=
  if score ≥ 9/10 then .critical
  else if score ≥ 8/10 then .high
  else if score ≥ 7/10 then .medium
  else .low

/-- Source `getCategorySeverity(category)` — category overrides used by the
"other categories" loop of `processRuleBasedResponse`. -/
def getCategorySeverity (category : String) : ViolationSeverity :=
  let criticalCategories := ["extremism", "violence", "self-harm"]
  let highCategories := ["weapon", "drug", "content-trade", "money-transaction"]
  let mediumCategories := ["spam", "medical"]
  if criticalCategories.contains category then .critical
  else if highCategories.contains category then .high
  else if mediumCategories.contains category then .medium
  else .low


/-! ## Contact redaction (packages/utils: detectAndRedactContactInfo)

The source uses three JavaScript regexes with the `g` flag.  We embed a
small backtracking regex engine with exactly the constructs those patterns
use (ordered alternation, greedy `?` and `{m,n}` over character classes,
word boundaries), mirroring JS semantics: leftmost match, greedy with
backtracking, scan resuming after the end of each match. -/

/-- JS `\w` character class (`[A-Za-z0-9_]`), used for `\b`. -/
def isWordChar (c : Char) : Bool :=
  c.isAlpha || c.isDigit || c = '_'

/-- JS `\s` whitespace class. -/
def isJsSpace (c : Char) : Bool :=
  c ∈ [' ', '\t', '\n', '\r', '\x0b', '\x0c', ' ', ' ',
       ' ', ' ', ' ', ' ', ' ', ' ',
       ' ', ' ', ' ', ' ', ' ', ' ',
       ' ', ' ', ' ', '　', '﻿']

/-- Regular-expression abstract syntax: exactly the constructs appearing in
`EMAIL_PATTERN`, `PHONE_PATTERN` and `SOCIAL_PATTERNS`. -/
inductive RE where
  | eps
  | cls (p : Char → Bool)
  | seq (a b : RE)
  | alt (a b : RE)
  | opt (a : RE)
  | reps (p : Char → Bool) (lo : Nat) (hi : Option Nat)
  | wb

/-- Greedy repetition of a character class with backtracking: prefer the
longest extension, falling back one character at a time down to `lo`.
`prev` is the previous input character (for `\b` in the continuation).
Structurally recursive on the input list so the kernel can evaluate it
(at the end of input, consuming more is impossible and only `lo = 0`
lets the continuation run, whatever `hi` is). -/
def repsMatch (p : Char → Bool) : Nat → Option Nat → Option Char → List Char →
    (Option Char → List Char → Option (List Char)) → Option (List Char)
  | lo, _, prev, [], k => if lo = 0 then k prev [] else none
  | lo, hi, prev, c :: rest, k =>
    if hi = some 0 then (if lo = 0 then k prev (c :: rest) else none)
    else
      let tryMore : Option (List Char) :=
        if p c then repsMatch p (lo - 1) (hi.map (· - 1)) (some c) rest k
        else none
      if lo = 0 then tryMore <|> k prev (c :: rest) else tryMore

/-- Word-boundary test at a position: previous character `prev` (none at the
start of the string) against the next character of `s`. -/
def wordBoundary (prev : Option Char) (s : List Char) : Bool :=
  (match prev with | some c => isWordChar c | none => false)
    != (match s with | c :: _ => isWordChar c | [] => false)

/-- Backtracking matcher in continuation style.  Returns the first success
in JS order: ordered alternation, greedy option and repetition. -/
def reMatch : RE → Option Char → List Char →
    (Option Char → List Char → Option (List Char)) → Option (List Char)
  | .eps, prev, s, k => k prev s
  | .cls p, _, s, k =>
    match s with
    | [] => none
    | c :: rest => if p c then k (some c) rest else none
  | .seq a b, prev, s, k => reMatch a prev s (fun prev2 s2 => reMatch b prev2 s2 k)
  | .alt a b, prev, s, k => reMatch a prev s k <|> reMatch b prev s k
  | .opt a, prev, s, k => reMatch a prev s k <|> k prev s
  | .reps p lo hi, prev, s, k => repsMatch p lo hi prev s k
  | .wb, prev, s, k => if wordBoundary prev s then k prev s else none

/-- Length of the match of `r` at the current position, if any. -/
def matchAt (r : RE) (prev : Option Char) (s : List Char) : Option Nat :=
  (reMatch r prev s (fun _ rem => some rem)).map (fun rem => s.length - rem.length)

/-- Fuelled scanning loop of `String.prototype.match` with the `g` flag:
collect the matched substrings left to right, resuming after the end of
each match (none of the embedded patterns can match the empty string; a
zero-length match is skipped by advancing one character, like the engine's
`lastIndex` bump).  Each step consumes at least one character, so fuel
`s.length` in `scanRE` below never runs out early; the fuel only makes the
recursion structural so the kernel can evaluate it. -/
def scanREAux (r : RE) : Nat → Option Char → List Char → List (List Char)
  | 0, _, _ => []
  | _, _, [] => []
  | fuel + 1, prev, c :: rest =>
    match matchAt r prev (c :: rest) with
    | some (n + 1) =>
      let m := (c :: rest).take (n + 1)
      m :: scanREAux r fuel m.getLast? ((c :: rest).drop (n + 1))
    | some 0 => scanREAux r fuel (some c) rest
    | none => scanREAux r fuel (some c) rest

/-- Global scan (`text.match(pattern)` under the `g` flag). -/
def scanRE (r : RE) (prev : Option Char) (s : List Char) : List (List Char) :=
  scanREAux r s.length prev s

/-- Character class `[A-Za-z0-9._%+-]` (local part of EMAIL_PATTERN). -/
def emailLocalChar (c : Char) : Bool :=
  c.isAlpha || c.isDigit || c ∈ ['.', '_', '%', '+', '-']

/-- Character class `[A-Za-z0-9.-]` (domain part of EMAIL_PATTERN). -/
def emailDomChar (c : Char) : Bool :=
  c.isAlpha || c.isDigit || c ∈ ['.', '-']

/-- Character class `[A-Z|a-z]` (top-level-domain part of EMAIL_PATTERN;
note the literal pipe the source includes in the class). -/
def emailTldChar (c : Char) : Bool :=
  c.isAlpha || c = '|'

/-- Character class `[\s.-]` (separators of PHONE_PATTERN). -/
def phoneSepChar (c : Char) : Bool :=
  isJsSpace c || c = '.' || c = '-'

/-- Case-insensitive literal (the social patterns carry the `i` flag). -/
def istr (lit : String) : RE :=
  lit.data.foldr (fun c acc => .seq (.cls (fun x => x.toLower = c.toLower)) acc) .eps

/-- Ordered alternation of a non-empty list of alternatives. -/
def altList : List RE → RE
  | [] => .eps
  | [r] => r
  | r :: rs => .alt r (altList rs)

/-- Pattern `\b[A-Za-z0-9._%+-]+@[A-Za-z0-9.-]+\.[A-Z|a-z]{2,}\b` (gi). -/
def emailRE : RE :=
  .seq .wb (.seq (.reps emailLocalChar 1 none)
    (.seq (.cls (· = '@')) (.seq (.reps emailDomChar 1 none)
      (.seq (.cls (· = '.')) (.seq (.reps emailTldChar 2 none) .wb)))))

/-- Pattern `(\+?\d{1,4}[\s.-]?)?\(?\d{1,4}\)?[\s.-]?\d{1,4}[\s.-]?\d{1,9}` (g). -/
def phoneRE : RE :=
  .seq (.opt (.seq (.opt (.cls (· = '+')))
      (.seq (.reps Char.isDigit 1 (some 4)) (.opt (.cls phoneSepChar)))))
    (.seq (.opt (.cls (· = '(')))
    (.seq (.reps Char.isDigit 1 (some 4))
    (.seq (.opt (.cls (· = ')')))
    (.seq (.opt (.cls phoneSepChar))
    (.seq (.reps Char.isDigit 1 (some 4))
    (.seq (.opt (.cls phoneSepChar))
      (.reps Char.isDigit 1 (some 9))))))))

/-- Pattern `@[a-zA-Z0-9_]{1,30}` (g) — handle-style mentions. -/
def social1RE : RE :=
  .seq (.cls (· = '@')) (.reps isWordChar 1 (some 30))

/-- Pattern
`(?:https?:\/\/)?(?:www\.)?(?:facebook|fb|instagram|twitter|linkedin|telegram|whatsapp|discord|snapchat)\.(?:com|me|org)\/[^\s]+` (gi). -/
def social2RE : RE :=
  .seq (.opt (.seq (istr "http") (.seq (.opt (.cls (fun c => c.toLower = 's')))
      (istr "://"))))
    (.seq (.opt (istr "www."))
    (.seq (altList [istr "facebook", istr "fb", istr "instagram", istr "twitter",
        istr "linkedin", istr "telegram", istr "whatsapp", istr "discord",
        istr "snapchat"])
    (.seq (istr ".")
    (.seq (altList [istr "com", istr "me", istr "org"])
    (.seq (.cls (· = '/')) (.reps (fun c => !isJsSpace c) 1 none))))))

/-- Pattern `(?:wa\.me|t\.me|discord\.gg)\/[^\s]+` (gi). -/
def social3RE : RE :=
  .seq (altList [istr "wa.me", istr "t.me", istr "discord.gg"])
    (.seq (.cls (· = '/')) (.reps (fun c => !isJsSpace c) 1 none))

/-- List of `SOCIAL_PATTERNS`, in source order. -/
def socialPatterns : List RE := [social1RE, social2RE, social3RE]

/-- JS `String.prototype.indexOf` on character lists (first occurrence). -/
def jsIndexOf : List Char → List Char → Option Nat
  | _, [] => some 0
  | [], _ :: _ => none
  | c :: rest, needle =>
    if needle.isPrefixOf (c :: rest) then some 0
    else (jsIndexOf rest needle).map (· + 1)

/-- JS `String.prototype.replace` with a plain-string search value: replace
the first occurrence, leave the string unchanged if absent. -/
def jsReplaceFirst (hay needle repl : List Char) : List Char :=
  match jsIndexOf hay needle with
  | none => hay
  | some i => hay.take i ++ repl ++ hay.drop (i + needle.length)

/-- Redaction span as produced by the source: `{ start, end, type }`. -/
structure Redaction where
  start : Nat
  «end» : Nat
  type : String
deriving DecidableEq, Repr

/-- Source `interface RedactionResult`. -/
structure RedactionResult where
  text : List Char
  redactions : List Redaction
  hasRedactions : Bool
deriving DecidableEq, Repr

/-- Body of each `forEach` iteration of the redaction loops: look the match
up in the current working text; when found, record a span at that working
position and replace the first occurrence with the placeholder. -/
def redactStep (placeholder : String) (ty : String)
    (st : List Char × List Redaction) (m : List Char) :
    List Char × List Redaction :=
  match jsIndexOf st.1 m with
  | some i =>
    (jsReplaceFirst st.1 m placeholder.data,
     st.2 ++ [{ start := i, «end» := i + m.length, type := ty }])
  | none => st

/-- Source `detectAndRedactContactInfo(text)`: match emails, phones (kept
only when they contain at least 7 digits) and the three social patterns
against the original text, redacting each hit in the working text. -/
def detectAndRedactContactInfo (text : String) : RedactionResult :=
  let t := text.data
  let emails := scanRE emailRE none t
  let st1 := emails.foldl (redactStep "[EMAIL REDACTED]" "email") (t, [])
  let phones := (scanRE phoneRE none t).filter
    (fun ph => 7 ≤ (ph.filter Char.isDigit).length)
  let st2 := phones.foldl (redactStep "[PHONE REDACTED]" "phone") st1
  let st3 := socialPatterns.foldl
    (fun st pat => (scanRE pat none t).foldl
      (redactStep "[CONTACT REDACTED]" "social") st) st2
  { text := st3.1, redactions := st3.2, hasRedactions := !st3.2.isEmpty }


/-! ## SafetyService (services/safety/index.ts)

The two Sightengine HTTP calls are modelled by their outcomes: a call either
throws (`Except.error`), returns a non-success payload (`Except.ok none`,
the `status !== 'success'` case), or returns a parsed response
(`Except.ok (some r)`).  Everything after the network boundary follows the
source. -/

/-- Entry of `response.profanity.matches`: the fields the code reads. -/
structure ProfanityMatch where
  intensity : String
  type : String
deriving DecidableEq, Repr

/-- Rule-based Sightengine response, reduced to the fields the code reads:
`profanity.matches` (intensity and type), `personal.matches` (type),
`link.matches` (only iterated, so a count), and for each of the nine
"other" categories the number of matches (`others` is a category → count
association list; absent categories have no matches). -/
structure RuleResponse where
  profanity : List ProfanityMatch
  personal : List String
  link : Nat
  others : List (String × Nat)
deriving DecidableEq, Repr

/-- ML Sightengine response: `moderation_classes` as an association list of
the numeric class scores (the `available` key holds a string list and is
skipped by both consumers, so it is not carried). -/
structure MLResponse where
  classes : List (String × ℚ)
deriving DecidableEq, Repr

/-- Source `SafetyConfig` (fields that never cross the network boundary are
the ones the verdict logic reads). -/
structure SafetyConfig where
  enableSightengine : Bool
  ruleBasedCategories : List String
  mlModels : List String
  threshold : Option ℚ
deriving DecidableEq, Repr

/-- Environment of one `moderateText` call: the API credentials read from
`process.env`, and the outcome each of the two network calls would have. -/
structure ApiEnv where
  apiUser : Option String
  apiSecret : Option String
  ruleOutcome : Except Unit (Option RuleResponse)
  mlOutcome : Except Unit (Option MLResponse)

/-- Source `metadata` of `SafetyResult` (the request id is an opaque string
threaded from the response; no claim reads it). -/
structure SafetyResultMeta where
  sightengineUsed : Bool
deriving DecidableEq, Repr

/-- Source `interface SafetyResult`. -/
structure SafetyResult where
  safe : Bool
  violations : List SafetyViolation
  redactionResult : RedactionResult
  processedText : List Char
  confidence : ℚ
  metadata : SafetyResultMeta
deriving DecidableEq, Repr

/-- Source `otherCategories` list iterated by the last loop of
`processRuleBasedResponse`. -/
def otherCategories : List String :=
  ["drug", "weapon", "spam", "content-trade", "money-transaction",
   "extremism", "violence", "self-harm", "medical"]

/-- Source `processRuleBasedResponse(response)`: profanity, personal-info,
link and other-category matches each become violations; push order follows
the source. -/
def processRuleBasedResponse (r : RuleResponse) : List SafetyViolation :=
  (r.profanity.map fun m =>
    let severity := mapIntensityToSeverity m.intensity
    { type := "profanity_" ++ m.type
      severity
      confidence := 1
      description := "Profanity detected: " ++ m.type ++ " (" ++ m.intensity ++ ")"
      category := .ruleBased
      action := if severity = .critical then .block else .flag })
  ++ (r.personal.map fun ty =>
    { type := "personal_" ++ ty
      severity := .high
      confidence := 1
      description := "Personal information detected: " ++ ty
      category := .ruleBased
      action := .block })
  ++ List.replicate r.link
    { type := "external_link"
      severity := .medium
      confidence := 1
      description := "External link detected"
      category := .ruleBased
      action := .flag }
  ++ (otherCategories.flatMap fun category =>
    let severity := getCategorySeverity category
    List.replicate ((r.others.lookup category).getD 0)
      { type := category
        severity
        confidence := 1
        description := category ++ " content detected"
        category := .ruleBased
        action := if severity = .critical then .block else .moderate })

/-- Violation built by `processMLResponse` for one moderation class. -/
def mkMLViolation (key : String) (score : ℚ) : SafetyViolation :=
  let severity := scoresToSeverity score
  { type := "ml_" ++ key
    severity
    confidence := score
    description := "ML detected " ++ key ++ " content"
    category := .mlBased
    action := if severity = .critical then .block else .moderate }

/-- Source `processMLResponse(response, threshold)`: each numeric moderation
class strictly above the threshold becomes an `ml_`-prefixed violation
(`forEach` plus conditional `push`, rendered as `filterMap`). -/
def processMLResponse (r : MLResponse) (threshold : ℚ) : List SafetyViolation :=
  r.classes.filterMap fun kv =>
    if kv.1 = "available" then none
    else if kv.2 > threshold then some (mkMLViolation kv.1 kv.2)
    else none

/-- Advisory violation pushed by the `catch` block of `moderateText`. -/
def apiErrorViolation : SafetyViolation :=
  { type := "moderation_api_error"
    severity := .low
    confidence := 1/2
    description := "Content moderation API temporarily unavailable"
    category := .ruleBased
    action := .flag }

/-- Contact-detection violation built from one redaction span. -/
def contactViolation (red : Redaction) : SafetyViolation :=
  { type := "contact_" ++ red.type
    severity := .high
    confidence := 1
    description := "Contact information detected: " ++ red.type
    category := .contactDetection
    action := .block }

/-- Layer-1 violations of `moderateText`: one per redaction span (the
`if (hasRedactions)` guard is redundant for the empty list). -/
def contactViolations (text : String) : List SafetyViolation :=
  (detectAndRedactContactInfo text).redactions.map contactViolation

/-- Effective ML threshold: `effectiveConfig.threshold || 0.7` — JS `||`
falls back on `undefined` and on the falsy score `0`. -/
def effectiveThreshold (cfg : SafetyConfig) : ℚ :=
  match cfg.threshold with
  | none => 7/10
  | some t => if t = 0 then 7/10 else t

/-- Maximum of a list of scores (used only on a non-empty list). -/
def maxScore : List ℚ → ℚ
  | [] => 0
  | h :: t => t.foldl max h

/-- Layer 2 of `moderateText` — the `try`/`catch` around the two Sightengine
calls.  Returns the violations pushed by this layer, `sightengineUsed`, and
the updated confidence.  A throw from either call lands in the single
`catch`, which appends the advisory violation to whatever was already
pushed; the rule-based call is attempted first, so a rule-call throw skips
the ML call entirely. -/
def sightengineLayer (env : ApiEnv) (cfg : SafetyConfig) :
    List SafetyViolation × Bool × ℚ :=
  let ruleStep : Except Unit (List SafetyViolation × Bool) :=
    if cfg.ruleBasedCategories.length > 0 then
      match env.ruleOutcome with
      | .error e => .error e
      | .ok none => .ok ([], false)
      | .ok (some r) => .ok (processRuleBasedResponse r, true)
    else .ok ([], false)
  match ruleStep with
  | .error _ => ([apiErrorViolation], false, 1)
  | .ok (ruleViolations, ruleUsed) =>
    if cfg.mlModels.length > 0 then
      match env.mlOutcome with
      | .error _ => (ruleViolations ++ [apiErrorViolation], ruleUsed, 1)
      | .ok none => (ruleViolations, ruleUsed, 1)
      | .ok (some m) =>
        let mlViolations := processMLResponse m (effectiveThreshold cfg)
        let scores := m.classes.map (·.2)
        let confidence : ℚ :=
          if scores.length > 0 then min 1 (1 - maxScore scores) else 1
        (ruleViolations ++ mlViolations, true, confidence)
    else (ruleViolations, ruleUsed, 1)

/-- Overall-safety computation at the end of `moderateText` (inline in the
source): no critical, no high, and no blocking violation. -/
def computeSafe (violations : List SafetyViolation) : Bool :=
  (violations.filter (fun v => v.severity = ViolationSeverity.critical)).length = 0
  && (violations.filter (fun v => v.severity = ViolationSeverity.high)).length = 0
  && (violations.filter (fun v => v.action = ViolationAction.block)).length = 0

/-- Source `SafetyService.moderateText(text)`: redaction layer, gated
Sightengine layer, then the safety verdict over the unioned violations. -/
def moderateText (env : ApiEnv) (cfg : SafetyConfig) (text : String) :
    SafetyResult :=
  let redactionResult := detectAndRedactContactInfo text
  let layer2 :=
    if cfg.enableSightengine && env.apiUser.isSome && env.apiSecret.isSome then
      sightengineLayer env cfg
    else ([], false, 1)
  let violations := contactViolations text ++ layer2.1
  { safe := computeSafe violations
    violations
    redactionResult
    processedText := redactionResult.text
    confidence := layer2.2.2
    metadata := { sightengineUsed := layer2.2.1 } }

/-! ## ModeratorService (services/matching, moderation part)

The Prisma tables touched by `recordSafetyEvent` are modelled as explicit
state: the `safetyEvent` table as a list of stored events (ids are list
positions) and the `user` row of the moderated user.  `Date.now()` is a
millisecond timestamp parameter.  Session termination inside
`applySanction` touches no data any claim reads and is not modelled. -/

/-- Stored `safetyEvent` row (fields the moderation logic reads back). -/
structure StoredEvent where
  id : Nat
  userId : String
  eventType : String
  severity : String
  createdAt : Int
  requiresHumanReview : Bool
deriving DecidableEq, Repr

/-- Stored `user` row (fields the moderation logic touches). -/
structure UserRow where
  id : String
  status : String
  suspendedUntil : Option Int
  suspensionReason : Option String
  warningCount : Nat
  lastWarningAt : Option Int
  safetyScore : Int
deriving DecidableEq, Repr

/-- Database state visible to `ModeratorService` for one user. -/
structure DbState where
  events : List StoredEvent
  user : UserRow
deriving DecidableEq, Repr

/-- Source `interface ModerationAction`. -/
structure ModerationAction where
  type : String
  duration : Option Nat
  reason : String
  autoApplied : Bool
deriving DecidableEq, Repr

/-- JS `String.prototype.toUpperCase` on the ASCII status and event-type
strings, as a kernel-computable character map. -/
def jsToUpper (s : String) : String :=
  ⟨s.data.map Char.toUpper⟩

/-- Source `getHighestSeverity(violations)`. -/
def getHighestSeverity (violations : List SafetyViolation) : String :=
  if violations.any (fun v => v.severity = ViolationSeverity.critical) then "CRITICAL"
  else if violations.any (fun v => v.severity = ViolationSeverity.high) then "HIGH"
  else if violations.any (fun v => v.severity = ViolationSeverity.medium) then "MEDIUM"
  else "LOW"

/-- Source `determineEventType(violations)`: first type of the priority
order present, otherwise the first violation\'s type, uppercased. -/
def determineEventType (violations : List SafetyViolation) : String :=
  match violations with
  | [] => "UNKNOWN"
  | v0 :: _ =>
    let priorityOrder := ["contact_email", "contact_phone", "contact_social",
      "profanity_sexual", "profanity_discriminatory",
      "extremism", "violence", "self-harm",
      "weapon", "drug", "content-trade",
      "spam", "external_link"]
    match priorityOrder.find? (fun p => violations.any (fun v => v.type = p)) with
    | some p => jsToUpper p
    | none => jsToUpper v0.type

/-- Length of the rolling history window: `getUserRecentViolations` sets
`thirtyDaysAgo` thirty days before now (modelled as 30 days of
milliseconds). -/
def thirtyDaysMs : Int := 30 * 24 * 60 * 60 * 1000

/-- Source `getUserRecentViolations(userId)`: events of the user created in
the last 30 days (the just-created event of the current call qualifies). -/
def getUserRecentViolations (now : Int) (st : DbState) (userId : String) :
    List StoredEvent :=
  st.events.filter (fun ev => ev.userId = userId && now - thirtyDaysMs ≤ ev.createdAt)

/-- Source `applySanction(userId, status, durationMinutes, reason)`:
set status (uppercased), `suspendedUntil` and `suspensionReason`. -/
def applySanction (now : Int) (u : UserRow) (status : String)
    (durationMinutes : Option Nat) (reason : Option String) : UserRow :=
  { u with
    status := jsToUpper status
    suspendedUntil := durationMinutes.map (fun d => now + d * 60 * 1000)
    suspensionReason := reason }

/-- Source `recordWarning(userId, reason)`: increment `warningCount`. -/
def recordWarning (now : Int) (u : UserRow) : UserRow :=
  { u with warningCount := u.warningCount + 1, lastWarningAt := some now }

/-- Source `determineSanctions(userId, violations, recentViolations)`:
priority chain over the current verdict and the rolling window, applying
the user mutation of the branch taken. -/
def determineSanctions (now : Int) (u : UserRow)
    (violations : List SafetyViolation) (recentViolations : List StoredEvent) :
    UserRow × Option ModerationAction :=
  let criticalViolations := violations.filter
    (fun v => v.severity = ViolationSeverity.critical)
  if criticalViolations.length > 0 then
    (applySanction now u "suspended" (some (24 * 60)) (some "Critical safety violation"),
     some { type := "temporary_restriction", duration := some (24 * 60),
            reason := "Critical safety violation detected", autoApplied := true })
  else
    let highViolations := violations.filter
      (fun v => v.severity = ViolationSeverity.high)
    if highViolations.length ≥ 2 then
      (applySanction now u "suspended" (some (4 * 60)) (some "Multiple high-severity violations"),
       some { type := "temporary_restriction", duration := some (4 * 60),
              reason := "Multiple high-severity violations", autoApplied := true })
    else
      let recentHighSeverityCount := (recentViolations.filter
        (fun ev => ev.severity = "HIGH" || ev.severity = "CRITICAL")).length
      if recentHighSeverityCount ≥ 3 then
        (applySanction now u "suspended" (some (12 * 60)) (some "Pattern of repeated violations"),
         some { type := "temporary_restriction", duration := some (12 * 60),
                reason := "Pattern of repeated violations detected", autoApplied := true })
      else
        let mediumViolations := violations.filter
          (fun v => v.severity = ViolationSeverity.medium)
        if mediumViolations.length > 0 && recentViolations.length = 0 then
          (recordWarning now u,
           some { type := "warning", duration := none,
                  reason := "First-time policy violation - educational warning issued",
                  autoApplied := true })
        else (u, none)

/-- Source `requiresHumanReview(violations, recentViolations)`. -/
def requiresHumanReview (violations : List SafetyViolation)
    (recentViolations : List StoredEvent) : Bool :=
  if violations.any (fun v => v.severity = ViolationSeverity.critical) then true
  else if recentViolations.length ≥ 5 then true
  else if (violations.filter (fun v => v.category = ViolationCategory.mlBased)).length ≥ 3
  then true
  else false

/-- Source per-violation score deductions of `updateUserSafetyScore`. -/
def scoreDeduction (violations : List SafetyViolation) : Nat :=
  violations.foldl (fun acc v =>
    match v.severity with
    | .critical => acc + 50
    | .high => acc + 25
    | .medium => acc + 10
    | .low => acc + 5) 0

/-- Source `updateUserSafetyScore(userId, violations)`: decrement by the
summed deduction, then clamp a negative score back to 0 in a second read
and write. -/
def updateUserSafetyScore (u : UserRow) (violations : List SafetyViolation) :
    UserRow :=
  let u1 := { u with safetyScore := u.safetyScore - scoreDeduction violations }
  if u1.safetyScore < 0 then { u1 with safetyScore := 0 } else u1

/-- Input of `recordSafetyEvent` (the fields the logic reads). -/
structure SafetyEventData where
  userId : String
  safetyResult : SafetyResult
deriving Repr

/-- Event row created at the start of `recordSafetyEvent` (its id models
the database primary key as the row position). -/
def newSafetyEvent (now : Int) (st : DbState) (eventData : SafetyEventData) :
    StoredEvent :=
  { id := st.events.length
    userId := eventData.userId
    eventType := determineEventType eventData.safetyResult.violations
    severity := getHighestSeverity eventData.safetyResult.violations
    createdAt := now
    requiresHumanReview := false }

/-- Source `ModeratorService.recordSafetyEvent(eventData)`: create the
event row, read the 30-day window (which now includes the new row),
determine and apply sanctions, possibly flag the new row for human review,
then apply the safety-score decay.  Returns the new state and actions. -/
def recordSafetyEvent (now : Int) (st : DbState) (eventData : SafetyEventData) :
    DbState × List ModerationAction :=
  let violations := eventData.safetyResult.violations
  let newEvent := newSafetyEvent now st eventData
  let st1 : DbState := { st with events := st.events ++ [newEvent] }
  let recentViolations := getUserRecentViolations now st1 eventData.userId
  let ds := determineSanctions now st1.user violations recentViolations
  let actions := match ds.2 with | some a => [a] | none => []
  let review :=
    if requiresHumanReview violations recentViolations then
      (st1.events.map (fun ev =>
        if ev.id = newEvent.id then { ev with requiresHumanReview := true } else ev),
       actions ++ [{ type := "escalate_to_human", duration := none,
                     reason := "Complex violation pattern requires human review",
                     autoApplied := true }])
    else (st1.events, actions)
  let user2 := updateUserSafetyScore ds.1 violations
  ({ events := review.1, user := user2 }, review.2)

/-! ## AdminService (services/admin/index.ts) -/

/-- Source `AdminService.adjustSafetyScore(userId, adjustment)`: the
explicit human score adjustment, clamped to `[0, 100]`. -/
def adjustSafetyScore (u : UserRow) (adjustment : Int) : UserRow :=
  { u with safetyScore := max 0 (min 100 (u.safetyScore + adjustment)) }

/-! ## Claim C2 — verdict invariant -/

/-- Characterisation of the inline overall-safety computation. -/
lemma computeSafe_eq_false_iff (vs : List SafetyViolation) :
    computeSafe vs = false ↔
      ∃ v ∈ vs, (v.severity = .high ∨ v.severity = .critical) ∨ v.action = .block := by
  rw [← Bool.not_eq_true]
  simp only [computeSafe, Bool.and_eq_true, decide_eq_true_eq,
    List.length_eq_zero, List.filter_eq_nil_iff, not_and_or]
  push_neg
  constructor
  · rintro ((h | h) | h) <;> obtain ⟨v, hv, hp⟩ := h
    · exact ⟨v, hv, Or.inl (Or.inr hp)⟩
    · exact ⟨v, hv, Or.inl (Or.inl hp)⟩
    · exact ⟨v, hv, Or.inr hp⟩
  · rintro ⟨v, hv, (h | h) | h⟩
    · exact Or.inl (Or.inr ⟨v, hv, h⟩)
    · exact Or.inl (Or.inl ⟨v, hv, h⟩)
    · exact Or.inr ⟨v, hv, h⟩

/-- C2 (confirmed).  For every result returned by `moderateText`,
`safe == false` iff the violations list contains at least one violation
whose severity is High or Critical or whose action is block. -/
theorem C2_verdict_safe_iff (env : ApiEnv) (cfg : SafetyConfig) (text : String) :
    (moderateText env cfg text).safe = false ↔
      ∃ v ∈ (moderateText env cfg text).violations,
        (v.severity = .high ∨ v.severity = .critical) ∨ v.action = .block :=
  computeSafe_eq_false_iff _

/-! ## Claims C6 and C10 — external-classifier failure and skip paths -/

/-- C6 (confirmed).  When the Sightengine layer is enabled and configured
but both external classifier calls fail, `moderateText` still returns a
result (the embedding is a total function): its violations are exactly the
contact-detection violations from redaction followed by the Low-severity
`moderation_api_error` advisory with action flag; in particular every
contact violation is kept and the advisory is present. -/
theorem C6_graceful_degradation (env : ApiEnv) (cfg : SafetyConfig) (text : String)
    (hEnable : cfg.enableSightengine = true)
    (hUser : env.apiUser.isSome = true)
    (hSecret : env.apiSecret.isSome = true)
    (hCats : cfg.ruleBasedCategories.length > 0)
    (hRule : env.ruleOutcome = .error ()) :
    (moderateText env cfg text).violations = contactViolations text ++ [apiErrorViolation]
    ∧ (∀ v ∈ contactViolations text, v ∈ (moderateText env cfg text).violations)
    ∧ apiErrorViolation ∈ (moderateText env cfg text).violations
    ∧ apiErrorViolation.severity = ViolationSeverity.low
    ∧ apiErrorViolation.action = ViolationAction.flag := by
  have hv : (moderateText env cfg text).violations
      = contactViolations text ++ [apiErrorViolation] := by
    simp [moderateText, sightengineLayer, hEnable, hUser, hSecret, hCats, hRule]
  refine ⟨hv, ?_, ?_, rfl, rfl⟩
  · intro v hvmem
    rw [hv]
    exact List.mem_append_left _ hvmem
  · rw [hv]
    exact List.mem_append_right _ (List.mem_singleton.mpr rfl)

/-- Closed witness for C6: an enabled configuration whose two classifier
calls both error, applied to a text containing an email address. -/
theorem C6_graceful_degradation_witness :
    (moderateText
        { apiUser := some "u", apiSecret := some "s",
          ruleOutcome := .error (), mlOutcome := .error () }
        { enableSightengine := true, ruleBasedCategories := ["profanity"],
          mlModels := ["general"], threshold := none }
        "a@b.co").violations
      = contactViolations "a@b.co" ++ [apiErrorViolation] :=
  (C6_graceful_degradation
    { apiUser := some "u", apiSecret := some "s",
      ruleOutcome := .error (), mlOutcome := .error () }
    { enableSightengine := true, ruleBasedCategories := ["profanity"],
      mlModels := ["general"], threshold := none }
    "a@b.co" rfl rfl rfl (by decide) rfl).1

/-- C10 (confirmed).  If Sightengine is disabled or either credential is
missing, `moderateText` skips the external layer silently: the violations
are exactly the contact-detection violations, `sightengineUsed` is false,
every violation has category contact-detection, and no
`moderation_api_error` advisory is emitted. -/
theorem C10_sightengine_skipped (env : ApiEnv) (cfg : SafetyConfig) (text : String)
    (hoff : cfg.enableSightengine = false ∨ env.apiUser = none ∨ env.apiSecret = none) :
    (moderateText env cfg text).violations = contactViolations text
    ∧ (moderateText env cfg text).metadata.sightengineUsed = false
    ∧ (∀ v ∈ (moderateText env cfg text).violations,
        v.category = ViolationCategory.contactDetection)
    ∧ apiErrorViolation ∉ (moderateText env cfg text).violations := by
  have hgate : (cfg.enableSightengine && env.apiUser.isSome && env.apiSecret.isSome) = false := by
    rcases hoff with h | h | h <;> simp [h]
  have hv : (moderateText env cfg text).violations = contactViolations text := by
    simp [moderateText, hgate]
  have hcat : ∀ v ∈ (moderateText env cfg text).violations,
      v.category = ViolationCategory.contactDetection := by
    intro v hvmem
    rw [hv] at hvmem
    obtain ⟨red, _, rfl⟩ := List.mem_map.mp hvmem
    rfl
  refine ⟨hv, ?_, hcat, ?_⟩
  · simp [moderateText, hgate]
  · intro hmem
    have := hcat _ hmem
    simp [apiErrorViolation] at this

/-- Closed witness for C10: disabled Sightengine on a text containing an
email address. -/
theorem C10_sightengine_skipped_witness :
    (moderateText
        { apiUser := some "u", apiSecret := some "s",
          ruleOutcome := .ok none, mlOutcome := .ok none }
        { enableSightengine := false, ruleBasedCategories := ["profanity"],
          mlModels := ["general"], threshold := none }
        "a@b.co").violations = contactViolations "a@b.co" :=
  (C10_sightengine_skipped
    { apiUser := some "u", apiSecret := some "s",
      ruleOutcome := .ok none, mlOutcome := .ok none }
    { enableSightengine := false, ruleBasedCategories := ["profanity"],
      mlModels := ["general"], threshold := none }
    "a@b.co" (Or.inl rfl)).1

/-! ## Claim C9 — safety-score decay and floor -/

/-- Sanctioning never touches the safety score: every branch of
`determineSanctions` leaves `safetyScore` unchanged. -/
lemma determineSanctions_safetyScore (now : Int) (u : UserRow)
    (violations : List SafetyViolation) (recent : List StoredEvent) :
    (determineSanctions now u violations recent).1.safetyScore = u.safetyScore := by
  simp only [determineSanctions, applySanction, recordWarning]
  repeat' split
  all_goals rfl

/-- Score clamp of `updateUserSafetyScore` expressed as a max. -/
lemma updateUserSafetyScore_score (u : UserRow) (vs : List SafetyViolation) :
    (updateUserSafetyScore u vs).safetyScore
      = max 0 (u.safetyScore - scoreDeduction vs) := by
  simp only [updateUserSafetyScore]
  split <;> rename_i h <;> dsimp only at h ⊢ <;> omega

/-- C9 (confirmed).  Recording a moderation outcome sets the user's safety
score to the old score minus the summed per-severity deduction
(Critical=50, High=25, Medium=10, Low=5), floored at 0; starting from a
non-negative score the engine never increases it, and the result is never
negative. -/
theorem C9_score_decay_floor (now : Int) (st : DbState) (ed : SafetyEventData)
    (adj : Int) (h : 0 ≤ st.user.safetyScore) :
    (recordSafetyEvent now st ed).1.user.safetyScore
      = max 0 (st.user.safetyScore - scoreDeduction ed.safetyResult.violations)
    ∧ (recordSafetyEvent now st ed).1.user.safetyScore ≤ st.user.safetyScore
    ∧ 0 ≤ (recordSafetyEvent now st ed).1.user.safetyScore
    ∧ (0 ≤ adj → st.user.safetyScore ≤ 100 →
        st.user.safetyScore ≤ (adjustSafetyScore st.user adj).safetyScore) := by
  have hrec : (recordSafetyEvent now st ed).1.user
      = updateUserSafetyScore
          (determineSanctions now st.user ed.safetyResult.violations
            (getUserRecentViolations now
              { events := st.events ++ [newSafetyEvent now st ed], user := st.user }
              ed.userId)).1
          ed.safetyResult.violations := rfl
  have hscore : (recordSafetyEvent now st ed).1.user.safetyScore
      = max 0 (st.user.safetyScore - scoreDeduction ed.safetyResult.violations) := by
    rw [hrec, updateUserSafetyScore_score, determineSanctions_safetyScore]
  refine ⟨hscore, ?_, ?_, ?_⟩
  · rw [hscore]; omega
  · rw [hscore]; omega
  · intro hadj hle
    simp only [adjustSafetyScore]
    omega

/-- Closed witness for C9: a user at score 100 hit by one Medium and one
Low violation drops to 85. -/
theorem C9_score_decay_floor_witness :
    (recordSafetyEvent 1000000
        { events := [],
          user := { id := "u1", status := "ACTIVE", suspendedUntil := none,
                    suspensionReason := none, warningCount := 0,
                    lastWarningAt := none, safetyScore := 100 } }
        { userId := "u1",
          safetyResult :=
            { safe := true,
              violations :=
                [{ type := "external_link", severity := .medium, confidence := 1,
                   description := "External link detected",
                   category := .ruleBased, action := .flag },
                 { type := "moderation_api_error", severity := .low, confidence := 1/2,
                   description := "Content moderation API temporarily unavailable",
                   category := .ruleBased, action := .flag }],
              redactionResult := { text := [], redactions := [], hasRedactions := false },
              processedText := [], confidence := 1,
              metadata := { sightengineUsed := false } } }).1.user.safetyScore
      = max 0 (100 - scoreDeduction
          [{ type := "external_link", severity := .medium, confidence := 1,
             description := "External link detected",
             category := .ruleBased, action := .flag },
           { type := "moderation_api_error", severity := .low, confidence := 1/2,
             description := "Content moderation API temporarily unavailable",
             category := .ruleBased, action := .flag }]) :=
  (C9_score_decay_floor 1000000
    { events := [],
      user := { id := "u1", status := "ACTIVE", suspendedUntil := none,
                suspensionReason := none, warningCount := 0,
                lastWarningAt := none, safetyScore := 100 } }
    { userId := "u1",
      safetyResult :=
        { safe := true,
          violations :=
            [{ type := "external_link", severity := .medium, confidence := 1,
               description := "External link detected",
               category := .ruleBased, action := .flag },
             { type := "moderation_api_error", severity := .low, confidence := 1/2,
               description := "Content moderation API temporarily unavailable",
               category := .ruleBased, action := .flag }],
          redactionResult := { text := [], redactions := [], hasRedactions := false },
          processedText := [], confidence := 1,
          metadata := { sightengineUsed := false } } }
    0 (by decide)).1

/-! ## Claim C4 — action assignment of the taxonomy mapping -/

/-- Counterexample to C4 as stated: a rule-based profanity finding of
intensity `medium` maps to severity High with action `flag`, not `block`
(the claim requires every High violation to get action block). -/
theorem C4_counterexample :
    ∃ v ∈ processRuleBasedResponse
        { profanity := [{ intensity := "medium", type := "insult" }],
          personal := [], link := 0, others := [] },
      v.severity = ViolationSeverity.high ∧ v.action ≠ ViolationAction.block := by
  refine ⟨_, List.mem_singleton.mpr rfl, ?_, ?_⟩ <;> decide

/-- C4 (amended).  Full action table of the taxonomy mapping: a Critical
violation always gets action block, and block is given only to Critical or
High violations.  Per source: a profanity finding carries the severity of
its intensity and gets block iff Critical, else flag; a personal-info
finding is High with block; a link finding is Medium with flag; a finding
of the other rule categories carries its category severity and gets block
iff Critical, else moderate; an ML finding gets block iff Critical, else
moderate; a contact-detection span yields High with block. -/
theorem C4_amended_action_severity (r : RuleResponse) (mlr : MLResponse) (t : ℚ)
    (red : Redaction) (v : SafetyViolation)
    (hv : v ∈ processRuleBasedResponse r ∨ v ∈ processMLResponse mlr t) :
    (v.severity = ViolationSeverity.critical → v.action = ViolationAction.block)
    ∧ (v.action = ViolationAction.block →
        v.severity = ViolationSeverity.critical ∨ v.severity = ViolationSeverity.high)
    ∧ (v ∈ processMLResponse mlr t →
        v.action = (if v.severity = ViolationSeverity.critical
          then ViolationAction.block else ViolationAction.moderate))
    ∧ (v ∈ processRuleBasedResponse r →
        (∃ m ∈ r.profanity,
            v.severity = mapIntensityToSeverity m.intensity
            ∧ v.action = (if v.severity = ViolationSeverity.critical
                then ViolationAction.block else ViolationAction.flag))
        ∨ (v.severity = ViolationSeverity.high ∧ v.action = ViolationAction.block
            ∧ ∃ ty ∈ r.personal, v.type = "personal_" ++ ty)
        ∨ (v.severity = ViolationSeverity.medium ∧ v.action = ViolationAction.flag
            ∧ v.type = "external_link")
        ∨ (∃ cat ∈ otherCategories, v.severity = getCategorySeverity cat
            ∧ v.action = (if v.severity = ViolationSeverity.critical
                then ViolationAction.block else ViolationAction.moderate)))
    ∧ (contactViolation red).severity = ViolationSeverity.high
    ∧ (contactViolation red).action = ViolationAction.block := by
  have hsrc : v ∈ processRuleBasedResponse r →
      (∃ m ∈ r.profanity,
          v.severity = mapIntensityToSeverity m.intensity
          ∧ v.action = (if v.severity = ViolationSeverity.critical
              then ViolationAction.block else ViolationAction.flag))
      ∨ (v.severity = ViolationSeverity.high ∧ v.action = ViolationAction.block
          ∧ ∃ ty ∈ r.personal, v.type = "personal_" ++ ty)
      ∨ (v.severity = ViolationSeverity.medium ∧ v.action = ViolationAction.flag
          ∧ v.type = "external_link")
      ∨ (∃ cat ∈ otherCategories, v.severity = getCategorySeverity cat
          ∧ v.action = (if v.severity = ViolationSeverity.critical
              then ViolationAction.block else ViolationAction.moderate)) := by
    intro hw
    rcases List.mem_append.mp hw with hw1 | hwD
    · rcases List.mem_append.mp hw1 with hw2 | hwC
      · rcases List.mem_append.mp hw2 with hwA | hwB
        · obtain ⟨m, hm, rfl⟩ := List.mem_map.mp hwA
          exact Or.inl ⟨m, hm, rfl, rfl⟩
        · obtain ⟨ty, hty, rfl⟩ := List.mem_map.mp hwB
          exact Or.inr (Or.inl ⟨rfl, rfl, ty, hty, rfl⟩)
      · have hrep := (List.mem_replicate.mp hwC).2
        subst hrep
        exact Or.inr (Or.inr (Or.inl ⟨rfl, rfl, rfl⟩))
    · obtain ⟨cat, hcat, hwrep⟩ := List.mem_flatMap.mp hwD
      have hrep := (List.mem_replicate.mp hwrep).2
      subst hrep
      exact Or.inr (Or.inr (Or.inr ⟨cat, hcat, rfl, rfl⟩))
  have hml : ∀ w ∈ processMLResponse mlr t,
      w.severity = scoresToSeverity w.confidence ∧
      w.action = (if w.severity = ViolationSeverity.critical
        then ViolationAction.block else ViolationAction.moderate) := by
    intro w hw
    obtain ⟨kv, _, hmk⟩ := List.mem_filterMap.mp hw
    split at hmk
    · exact absurd hmk (by simp)
    · split at hmk
      · cases (Option.some_inj.mp hmk).symm
        exact ⟨rfl, rfl⟩
      · exact absurd hmk (by simp)
  have hrule : ∀ w ∈ processRuleBasedResponse r,
      (w.severity = ViolationSeverity.critical → w.action = ViolationAction.block)
      ∧ (w.action = ViolationAction.block →
          w.severity = ViolationSeverity.critical ∨ w.severity = ViolationSeverity.high) := by
    intro w hw
    rcases List.mem_append.mp hw with hw1 | hwD
    · rcases List.mem_append.mp hw1 with hw2 | hwC
      · rcases List.mem_append.mp hw2 with hwA | hwB
        · obtain ⟨m, _, rfl⟩ := List.mem_map.mp hwA
          dsimp only
          constructor
          · intro hc
            rw [if_pos hc]
          · intro hb
            by_cases hc : mapIntensityToSeverity m.intensity = ViolationSeverity.critical
            · exact Or.inl hc
            · rw [if_neg hc] at hb
              exact absurd hb (by decide)
        · obtain ⟨ty, _, rfl⟩ := List.mem_map.mp hwB
          exact ⟨(fun hc => nomatch hc), (fun _ => Or.inr rfl)⟩
      · have := (List.mem_replicate.mp hwC).2
        subst this
        exact ⟨(fun hc => nomatch hc), (fun hb => nomatch hb)⟩
    · obtain ⟨cat, _, hwrep⟩ := List.mem_flatMap.mp hwD
      have := (List.mem_replicate.mp hwrep).2
      subst this
      dsimp only
      constructor
      · intro hc
        rw [if_pos hc]
      · intro hb
        by_cases hc : getCategorySeverity cat = ViolationSeverity.critical
        · exact Or.inl hc
        · rw [if_neg hc] at hb
          exact absurd hb (by decide)
  rcases hv with hv | hv
  · obtain ⟨h1, h2⟩ := hrule v hv
    exact ⟨h1, h2, fun hvm => (hml v hvm).2, hsrc, rfl, rfl⟩
  · obtain ⟨hs, ha⟩ := hml v hv
    refine ⟨fun hc => by rw [ha, if_pos hc], fun hb => ?_, fun _ => ha, hsrc, rfl, rfl⟩
    by_cases hc : v.severity = ViolationSeverity.critical
    · exact Or.inl hc
    · rw [ha, if_neg hc] at hb
      exact absurd hb (by decide)

/-- Closed witness for C4's amended theorem: the Critical profanity
violation produced for an intensity-high finding gets action block. -/
theorem C4_amended_action_severity_witness :
    ({ type := "profanity_insult", severity := .critical, confidence := 1,
       description := "Profanity detected: insult (high)",
       category := .ruleBased, action := .block } : SafetyViolation).action
      = ViolationAction.block :=
  (C4_amended_action_severity
    { profanity := [{ intensity := "high", type := "insult" }],
      personal := [], link := 0, others := [] }
    { classes := [] } 1
    { start := 0, «end» := 6, type := "email" }
    { type := "profanity_insult", severity := .critical, confidence := 1,
      description := "Profanity detected: insult (high)",
      category := .ruleBased, action := .block }
    (Or.inl (List.mem_singleton.mpr rfl))).1 rfl

/-! ## Claim C7 — ML confidence threshold and severity bands -/

/-- Counterexample to C7 as stated: a finding whose score sits exactly at
the default threshold 0.7 produces no violation, because the source filters
with a strict `score > threshold` comparison ("at or above" fails). -/
theorem C7_counterexample :
    processMLResponse { classes := [("general", 7/10)] } (7/10) = [] := by
  norm_num [processMLResponse, List.filterMap]

/-- C7 (amended).  A moderation-class finding produces a violation iff its
score is strictly above the threshold; the produced violation's severity
follows the bands `≥0.9 → Critical`, `≥0.8 → High`, `≥0.7 → Medium`,
otherwise Low, and every produced violation stems from such a finding. -/
theorem C7_amended_ml_threshold (mlr : MLResponse) (t : ℚ) :
    (∀ kv ∈ mlr.classes, kv.1 ≠ "available" → kv.2 > t →
        mkMLViolation kv.1 kv.2 ∈ processMLResponse mlr t
        ∧ (mkMLViolation kv.1 kv.2).severity
            = (if kv.2 ≥ 9/10 then ViolationSeverity.critical
               else if kv.2 ≥ 8/10 then ViolationSeverity.high
               else if kv.2 ≥ 7/10 then ViolationSeverity.medium
               else ViolationSeverity.low))
    ∧ (∀ v ∈ processMLResponse mlr t,
        ∃ kv ∈ mlr.classes, kv.1 ≠ "available" ∧ kv.2 > t
          ∧ v = mkMLViolation kv.1 kv.2) := by
  constructor
  · intro kv hkv hne hgt
    refine ⟨List.mem_filterMap.mpr ⟨kv, hkv, ?_⟩, rfl⟩
    rw [if_neg hne, if_pos hgt]
  · intro v hv
    obtain ⟨kv, hkv, heq⟩ := List.mem_filterMap.mp hv
    by_cases hne : kv.1 = "available"
    · rw [if_pos hne] at heq
      exact absurd heq (by simp)
    · rw [if_neg hne] at heq
      by_cases hgt : kv.2 > t
      · rw [if_pos hgt] at heq
        exact ⟨kv, hkv, hne, hgt, (Option.some_inj.mp heq).symm⟩
      · rw [if_neg hgt] at heq
        exact absurd heq (by simp)

/-- Closed witness for C7's amended theorem: a score of 0.95 against the
default threshold 0.7 yields a Critical ML violation. -/
theorem C7_amended_ml_threshold_witness :
    mkMLViolation "general" (95/100)
        ∈ processMLResponse { classes := [("general", 95/100)] } (7/10)
    ∧ (mkMLViolation "general" (95/100)).severity = ViolationSeverity.critical := by
  have h := (C7_amended_ml_threshold { classes := [("general", 95/100)] } (7/10)).1
    ("general", 95/100) (List.mem_singleton.mpr rfl) (by decide) (by norm_num)
  exact ⟨h.1, by rw [h.2]; norm_num⟩

/-! ## Claims C1 and C3 — escalation scenarios -/

/-- Freshly registered user row (registration default score 100). -/
def activeUser : UserRow :=
  { id := "u1", status := "ACTIVE", suspendedUntil := none, suspensionReason := none,
    warningCount := 0, lastWarningAt := none, safetyScore := 100 }

/-- Medium-severity rule violation, as produced for an external link. -/
def mediumLinkViolation : SafetyViolation :=
  { type := "external_link", severity := .medium, confidence := 1,
    description := "External link detected", category := .ruleBased, action := .flag }

/-- High-severity contact-detection violation, as produced for an email. -/
def highContactViolation : SafetyViolation :=
  { type := "contact_email", severity := .high, confidence := 1,
    description := "Contact information detected: email",
    category := .contactDetection, action := .block }

/-- Safety result wrapping a violation list (the fields `recordSafetyEvent`
reads beyond `violations` are inert). -/
def mkSafetyResult (vs : List SafetyViolation) : SafetyResult :=
  { safe := computeSafe vs, violations := vs,
    redactionResult := { text := [], redactions := [], hasRedactions := false },
    processedText := [], confidence := 1,
    metadata := { sightengineUsed := false } }

/-- Prior HIGH-severity stored event inside the 30-day window. -/
def priorHighEvent (i : Nat) : StoredEvent :=
  { id := i, userId := "u1", eventType := "CONTACT_EMAIL", severity := "HIGH",
    createdAt := 500000, requiresHumanReview := false }

/-- C1 (code_bug).  A user with zero prior events who sends one
Medium-severity violation gets NO warning: `recordSafetyEvent` creates the
event row before reading the 30-day window, so the window already contains
the current event, the `recentViolations.length === 0` guard of the
first-time-warning branch can never hold, and `warningCount` stays 0 with
no action issued (the spec requires `warningCount += 1`). -/
theorem C1_first_medium_yields_no_warning :
    (recordSafetyEvent 1000000 { events := [], user := activeUser }
        { userId := "u1", safetyResult := mkSafetyResult [mediumLinkViolation] }).2 = []
    ∧ (recordSafetyEvent 1000000 { events := [], user := activeUser }
        { userId := "u1", safetyResult := mkSafetyResult [mediumLinkViolation] }).1.user.warningCount = 0
    ∧ (recordSafetyEvent 1000000 { events := [], user := activeUser }
        { userId := "u1", safetyResult := mkSafetyResult [mediumLinkViolation] }).1.user.status = "ACTIVE"
    ∧ (recordSafetyEvent 1000000 { events := [], user := activeUser }
        { userId := "u1", safetyResult := mkSafetyResult [mediumLinkViolation] }).1.user.suspendedUntil = none := by
  refine ⟨rfl, rfl, rfl, rfl⟩

/-- Counterexample to C3 as stated: with 2 prior HIGH events in the window,
a third High-severity message does suspend for 12h, but the recorded
SafetyEvent is NOT flagged `requiresHumanReview` (no Critical violation,
only 3 window events, no ML violations), contradicting the claim. -/
theorem C3_counterexample :
    (recordSafetyEvent 1000000
        { events := [priorHighEvent 0, priorHighEvent 1], user := activeUser }
        { userId := "u1", safetyResult := mkSafetyResult [highContactViolation] }).1.user.status
      = "SUSPENDED"
    ∧ (recordSafetyEvent 1000000
        { events := [priorHighEvent 0, priorHighEvent 1], user := activeUser }
        { userId := "u1", safetyResult := mkSafetyResult [highContactViolation] }).1.user.suspendedUntil
      = some (1000000 + 12 * 60 * 60 * 1000)
    ∧ (∀ ev ∈ (recordSafetyEvent 1000000
        { events := [priorHighEvent 0, priorHighEvent 1], user := activeUser }
        { userId := "u1", safetyResult := mkSafetyResult [highContactViolation] }).1.events,
        ev.requiresHumanReview = false) := by
  refine ⟨by decide, by decide, by decide⟩

/-- C3 (amended).  A user whose 30-day window holds exactly 2 prior
HIGH-severity events and who sends a message with a single High-severity
non-ML violation is suspended with `suspendedUntil = now + 12h` ("pattern
of repeated violations", the window count including the new event reaches
3) — but the recorded SafetyEvent is left with `requiresHumanReview =
false`, since none of the review triggers (a Critical violation, ≥5 window
events, ≥3 ML violations) holds in this scenario. -/
theorem C3_amended_repeat_high_suspension (now : Int) (u : UserRow) (uid : String)
    (e1 e2 : StoredEvent) (v : SafetyViolation)
    (h1id : e1.userId = uid) (h2id : e2.userId = uid)
    (h1sev : e1.severity = "HIGH") (h2sev : e2.severity = "HIGH")
    (h1t : now - thirtyDaysMs ≤ e1.createdAt) (h2t : now - thirtyDaysMs ≤ e2.createdAt)
    (hv : v.severity = ViolationSeverity.high)
    (hvcat : v.category ≠ ViolationCategory.mlBased) :
    (recordSafetyEvent now { events := [e1, e2], user := u }
        { userId := uid, safetyResult := mkSafetyResult [v] }).1.user.status = "SUSPENDED"
    ∧ (recordSafetyEvent now { events := [e1, e2], user := u }
        { userId := uid, safetyResult := mkSafetyResult [v] }).1.user.suspendedUntil
      = some (now + 12 * 60 * 60 * 1000)
    ∧ (recordSafetyEvent now { events := [e1, e2], user := u }
        { userId := uid, safetyResult := mkSafetyResult [v] }).1.events
      = [e1, e2, newSafetyEvent now { events := [e1, e2], user := u }
          { userId := uid, safetyResult := mkSafetyResult [v] }]
    ∧ (newSafetyEvent now { events := [e1, e2], user := u }
        { userId := uid, safetyResult := mkSafetyResult [v] }).requiresHumanReview = false := by
  have hvv : (mkSafetyResult [v]).violations = [v] := rfl
  have hself : now - thirtyDaysMs ≤ now := by simp only [thirtyDaysMs]; omega
  have hhs : getHighestSeverity [v] = "HIGH" := by
    simp [getHighestSeverity, hv]
  have hrec : getUserRecentViolations now
      { events := [e1, e2] ++ [newSafetyEvent now { events := [e1, e2], user := u }
          { userId := uid, safetyResult := mkSafetyResult [v] }], user := u } uid
      = [e1, e2, newSafetyEvent now { events := [e1, e2], user := u }
          { userId := uid, safetyResult := mkSafetyResult [v] }] := by
    simp [getUserRecentViolations, newSafetyEvent, h1id, h2id, h1t, h2t, hself]
    omega
  have hds : determineSanctions now u [v]
      [e1, e2, newSafetyEvent now { events := [e1, e2], user := u }
          { userId := uid, safetyResult := mkSafetyResult [v] }]
      = (applySanction now u "suspended" (some (12 * 60))
            (some "Pattern of repeated violations"),
         some { type := "temporary_restriction", duration := some (12 * 60),
                reason := "Pattern of repeated violations detected", autoApplied := true }) := by
    simp [determineSanctions, hv, h1sev, h2sev, newSafetyEvent, hhs, mkSafetyResult]
  have hreview : requiresHumanReview [v]
      [e1, e2, newSafetyEvent now { events := [e1, e2], user := u }
          { userId := uid, safetyResult := mkSafetyResult [v] }] = false := by
    simp [requiresHumanReview, hv, hvcat]
  simp only [recordSafetyEvent, hvv]
  rw [hrec, hds, hreview]
  simp [applySanction, updateUserSafetyScore, jsToUpper]
  split <;> simp [newSafetyEvent]

/-- Closed witness for C3's amended theorem at the concrete scenario. -/
theorem C3_amended_repeat_high_suspension_witness :
    (recordSafetyEvent 1000000
        { events := [priorHighEvent 0, priorHighEvent 1], user := activeUser }
        { userId := "u1", safetyResult := mkSafetyResult [highContactViolation] }).1.user.status
      = "SUSPENDED" :=
  (C3_amended_repeat_high_suspension 1000000 activeUser "u1"
    (priorHighEvent 0) (priorHighEvent 1) highContactViolation
    rfl rfl rfl rfl (by decide) (by decide) rfl (by decide)).1

/-! ## Claim C5 — redaction is not idempotent -/

/-- C5 (violated by the code).  On `"telegram.me/abc@def.com"` the first
pass redacts only the email (the social-link match of the original text is
no longer found in the working text), leaving
`"telegram.me/[EMAIL REDACTED]"`; a second pass then matches the social
pattern against `"telegram.me/[EMAIL"` and rewrites the text again, so
redaction applied to its own output finds a new span and changes the text —
the required round-trip property fails. -/
theorem C5_not_idempotent :
    (detectAndRedactContactInfo "telegram.me/abc@def.com").text
      = "telegram.me/[EMAIL REDACTED]".data
    ∧ (detectAndRedactContactInfo "telegram.me/[EMAIL REDACTED]").hasRedactions = true
    ∧ (detectAndRedactContactInfo "telegram.me/[EMAIL REDACTED]").redactions
      = [{ start := 0, «end» := 18, type := "social" }]
    ∧ (detectAndRedactContactInfo "telegram.me/[EMAIL REDACTED]").text
      = "[CONTACT REDACTED] REDACTED]".data := by
  refine ⟨by decide, by decide, by decide, by decide⟩

/-! ## Claim C8 — span offsets -/

/-- Counterexample to C8 as stated: on `"a@b.co 5551234567"` (17 characters)
the phone span is recorded as 17–27, the position of the phone number in
the working text after the email placeholder lengthened it — not its
position 7 in the original input, which the span range does not even fit. -/
theorem C8_counterexample :
    (detectAndRedactContactInfo "a@b.co 5551234567").redactions
      = [{ start := 0, «end» := 6, type := "email" },
         { start := 17, «end» := 27, type := "phone" }]
    ∧ "a@b.co 5551234567".length = 17
    ∧ jsIndexOf "a@b.co 5551234567".data "5551234567".data = some 7 := by
  refine ⟨by decide, by decide, by decide⟩

/-- Concatenation of every match list the redaction loops iterate over, in
loop order: emails, digit-filtered phones, then the three social patterns. -/
def allContactMatches (t : List Char) : List (List Char) :=
  scanRE emailRE none t
  ++ (scanRE phoneRE none t).filter (fun ph => 7 ≤ (ph.filter Char.isDigit).length)
  ++ scanRE social1RE none t ++ scanRE social2RE none t ++ scanRE social3RE none t

/-- Each redaction loop only appends spans. -/
lemma redactStep_snd_append (ph ty : String) (ms : List (List Char))
    (st : List Char × List Redaction) :
    ∃ extra, (ms.foldl (redactStep ph ty) st).2 = st.2 ++ extra := by
  induction ms generalizing st with
  | nil => exact ⟨[], by simp⟩
  | cons m ms ih =>
    simp only [List.foldl_cons]
    rcases h : jsIndexOf st.1 m with _ | i
    · have hstep : redactStep ph ty st m = st := by simp [redactStep, h]
      rw [hstep]
      exact ih st
    · have hstep : redactStep ph ty st m
          = (jsReplaceFirst st.1 m ph.data,
             st.2 ++ [{ start := i, «end» := i + m.length, type := ty }]) := by
        simp [redactStep, h]
      rw [hstep]
      obtain ⟨extra, hx⟩ := ih _
      exact ⟨{ start := i, «end» := i + m.length, type := ty } :: extra,
        by rw [hx, List.append_assoc]; rfl⟩

/-- Dichotomy for one redaction loop started on a pristine state: either it
records nothing and leaves the text untouched, or its first recorded span
locates its match by `indexOf` in the original text `t0`. -/
lemma foldl_redactStep_head (ph ty : String) (ms : List (List Char)) (t0 : List Char) :
    ((ms.foldl (redactStep ph ty) (t0, ([] : List Redaction))).1 = t0
      ∧ (ms.foldl (redactStep ph ty) (t0, ([] : List Redaction))).2 = [])
    ∨ ∃ m ∈ ms, ∃ i, jsIndexOf t0 m = some i
        ∧ (ms.foldl (redactStep ph ty) (t0, ([] : List Redaction))).2.head?
          = some { start := i, «end» := i + m.length, type := ty } := by
  induction ms with
  | nil => exact Or.inl ⟨rfl, rfl⟩
  | cons m ms ih =>
    simp only [List.foldl_cons]
    rcases h : jsIndexOf t0 m with _ | i
    · have hstep : redactStep ph ty (t0, ([] : List Redaction)) m = (t0, []) := by
        simp [redactStep, h]
      rw [hstep]
      rcases ih with hl | ⟨m', hm', i, hi, hh⟩
      · exact Or.inl hl
      · exact Or.inr ⟨m', List.mem_cons_of_mem _ hm', i, hi, hh⟩
    · have hstep : redactStep ph ty (t0, ([] : List Redaction)) m
          = (jsReplaceFirst t0 m ph.data,
             [{ start := i, «end» := i + m.length, type := ty }]) := by
        simp [redactStep, h]
      rw [hstep]
      obtain ⟨extra, hx⟩ := redactStep_snd_append ph ty ms _
      refine Or.inr ⟨m, List.mem_cons_self _ _, i, h, ?_⟩
      rw [hx]
      rfl

/-- Later loops never change the first recorded span. -/
lemma foldl_redactStep_head_preserved (ph ty : String) (ms : List (List Char))
    (st : List Char × List Redaction) (h : st.2 ≠ []) :
    (ms.foldl (redactStep ph ty) st).2.head? = st.2.head? := by
  obtain ⟨extra, hx⟩ := redactStep_snd_append ph ty ms st
  rw [hx]
  cases hst : st.2 with
  | nil => exact absurd hst h
  | cons a l => simp

/-- Correctness of `jsIndexOf`: a reported index is a position where the
needle actually occurs. -/
lemma jsIndexOf_slice : ∀ (hay needle : List Char) (i : Nat),
    jsIndexOf hay needle = some i → (hay.drop i).take needle.length = needle := by
  intro hay
  induction hay with
  | nil =>
    intro needle i h
    cases needle with
    | nil =>
      simp [jsIndexOf] at h
      subst h
      rfl
    | cons d nr => simp [jsIndexOf] at h
  | cons c rest ih =>
    intro needle i h
    cases needle with
    | nil =>
      simp [jsIndexOf] at h
      subst h
      rfl
    | cons d nr =>
      by_cases hpre : (d :: nr).isPrefixOf (c :: rest)
      · have hi : i = 0 := by
          simp [jsIndexOf, hpre] at h
          omega
        subst hi
        have hp : (d :: nr) <+: (c :: rest) := List.isPrefixOf_iff_prefix.mp hpre
        have := List.prefix_iff_eq_take.mp hp
        simpa using this.symm
      · simp [jsIndexOf, hpre] at h
        obtain ⟨j, hj, hij⟩ := h
        subst hij
        simpa [List.drop_succ_cons] using ih (d :: nr) j hj

/-- Invariant carried across the redaction loops: the state is either still
pristine, or its first span already locates one of the original matches in
the original text. -/
lemma redact_inv_step (t : List Char) (ph ty : String) (ms : List (List Char))
    (st : List Char × List Redaction)
    (hms : ∀ m ∈ ms, m ∈ allContactMatches t)
    (hinv : (st.1 = t ∧ st.2 = [])
      ∨ ∃ sp, st.2.head? = some sp
          ∧ ∃ m, jsIndexOf t m = some sp.start ∧ sp.«end» = sp.start + m.length
              ∧ m ∈ allContactMatches t) :
    ((ms.foldl (redactStep ph ty) st).1 = t ∧ (ms.foldl (redactStep ph ty) st).2 = [])
    ∨ ∃ sp, (ms.foldl (redactStep ph ty) st).2.head? = some sp
        ∧ ∃ m, jsIndexOf t m = some sp.start ∧ sp.«end» = sp.start + m.length
            ∧ m ∈ allContactMatches t := by
  rcases hinv with ⟨h1, h2⟩ | ⟨sp, hh, hc⟩
  · obtain ⟨s1, s2⟩ := st
    dsimp only at h1 h2
    rw [h1, h2]
    rcases foldl_redactStep_head ph ty ms t with hl | ⟨m, hm, i, hi, hh⟩
    · exact Or.inl hl
    · exact Or.inr ⟨{ start := i, «end» := i + m.length, type := ty }, hh,
        m, hi, rfl, hms m hm⟩
  · right
    refine ⟨sp, ?_, hc⟩
    have hne : st.2 ≠ [] := by
      intro hnil
      rw [hnil] at hh
      cases hh
    rw [foldl_redactStep_head_preserved ph ty ms st hne]
    exact hh

/-- C8 (amended).  Only the first recorded redaction span is guaranteed to
carry original-text offsets: its range holds exactly one of the pattern
matches of the original text, located by `indexOf` in that original text.
Later spans are recorded against the partially redacted working text and
may be shifted by earlier placeholder replacements (see the
counterexample). -/
theorem C8_amended_first_span_original_offsets (text : String) (sp : Redaction)
    (h : (detectAndRedactContactInfo text).redactions.head? = some sp) :
    ∃ m : List Char,
      (text.data.drop sp.start).take m.length = m
      ∧ jsIndexOf text.data m = some sp.start
      ∧ sp.«end» = sp.start + m.length
      ∧ m ∈ allContactMatches text.data := by
  have hdef : (detectAndRedactContactInfo text).redactions
      = ((scanRE social3RE none text.data).foldl
          (redactStep "[CONTACT REDACTED]" "social")
          ((scanRE social2RE none text.data).foldl
            (redactStep "[CONTACT REDACTED]" "social")
            ((scanRE social1RE none text.data).foldl
              (redactStep "[CONTACT REDACTED]" "social")
              (((scanRE phoneRE none text.data).filter
                  (fun ph => 7 ≤ (ph.filter Char.isDigit).length)).foldl
                (redactStep "[PHONE REDACTED]" "phone")
                ((scanRE emailRE none text.data).foldl
                  (redactStep "[EMAIL REDACTED]" "email")
                  (text.data, ([] : List Redaction))))))).2 := rfl
  have hm1 : ∀ m ∈ scanRE emailRE none text.data, m ∈ allContactMatches text.data := by
    intro m hm
    simp [allContactMatches, hm]
  have hm2 : ∀ m ∈ (scanRE phoneRE none text.data).filter
      (fun ph => 7 ≤ (ph.filter Char.isDigit).length), m ∈ allContactMatches text.data := by
    intro m hm
    simp [allContactMatches, hm]
  have hm3 : ∀ m ∈ scanRE social1RE none text.data, m ∈ allContactMatches text.data := by
    intro m hm
    simp [allContactMatches, hm]
  have hm4 : ∀ m ∈ scanRE social2RE none text.data, m ∈ allContactMatches text.data := by
    intro m hm
    simp [allContactMatches, hm]
  have hm5 : ∀ m ∈ scanRE social3RE none text.data, m ∈ allContactMatches text.data := by
    intro m hm
    simp [allContactMatches, hm]
  have h1 := redact_inv_step text.data "[EMAIL REDACTED]" "email"
    (scanRE emailRE none text.data) (text.data, ([] : List Redaction)) hm1
    (Or.inl ⟨rfl, rfl⟩)
  have h2 := redact_inv_step text.data "[PHONE REDACTED]" "phone" _ _ hm2 h1
  have h3 := redact_inv_step text.data "[CONTACT REDACTED]" "social" _ _ hm3 h2
  have h4 := redact_inv_step text.data "[CONTACT REDACTED]" "social" _ _ hm4 h3
  have h5 := redact_inv_step text.data "[CONTACT REDACTED]" "social" _ _ hm5 h4
  rw [hdef] at h
  rcases h5 with ⟨_, hnil⟩ | ⟨sp', hh', m, hi, he, hmem⟩
  · rw [hnil] at h
    cases h
  · rw [hh'] at h
    cases h
    exact ⟨m, jsIndexOf_slice _ _ _ hi, hi, he, hmem⟩

/-- Closed witness for C8's amended theorem: on `"a@b.co 5551234567"` the
first span is the email at original offsets 0–6. -/
theorem C8_amended_first_span_original_offsets_witness :
    ∃ m : List Char,
      ("a@b.co 5551234567".data.drop 0).take m.length = m
      ∧ jsIndexOf "a@b.co 5551234567".data m = some 0
      ∧ (6 : Nat) = 0 + m.length
      ∧ m ∈ allContactMatches "a@b.co 5551234567".data :=
  C8_amended_first_span_original_offsets "a@b.co 5551234567"
    { start := 0, «end» := 6, type := "email" } (by decide)

end SpeakPoly
